import Mathlib

/-!
Verification of the DevMind backend core (src/Backend/main.py and
src/Backend/main_multi_model.py): a shallow embedding of
`DatabaseManager.execute_with_retry` and of `VSCodeBridgeManager`
(`connect` / `disconnect` / `send_prompt`), with proofs of the spec's
testable properties about them.

Conventions of the embedding:
* Python machine floats appear only as the constant delay 0.1 and the
  default temperature 0.7; they are modelled as the exact rationals
  1/10 and 7/10, since only their symbolic values matter here.
* The outside world (the SQLite driver, the WebSocket transport, the
  wall clock) is an explicit oracle argument: each physical database
  attempt and each transport operation has its outcome supplied by the
  oracle, and the embedded function deterministically folds over it.
* `asyncio.sleep` calls are recorded in an explicit trace of slept
  durations; messages written to the transport are likewise traced.
-/

namespace DevMind

/-! ### Substring matching (model of Python's `in` on `str.lower()`) -/

/-- `startsWithCL pat l` holds iff `pat` is an initial segment of `l`
(model of Python `str.startswith`, used to build `in`). -/
def startsWithCL : List Char → List Char → Bool
  | [], _ => true
  | _ :: _, [] => false
  | a :: as, b :: bs => a = b && startsWithCL as bs

/-- `hasSub pat l` holds iff `pat` occurs contiguously inside `l`
(model of Python's `pat in l` on strings). -/
def hasSub (pat : List Char) : List Char → Bool
  | [] => pat.isEmpty
  | c :: t => startsWithCL pat (c :: t) || hasSub pat t

/-- ASCII lower-casing of one character (the fragment of Python
`str.lower` relevant to the ASCII error signatures matched here). -/
def lowerChar (c : Char) : Char :=
  if 'A' ≤ c ∧ c ≤ 'Z' then Char.ofNat (c.toNat + 32) else c

/-- Model of `str(e).lower()` as a character list. -/
def lowerStr (s : String) : List Char := s.data.map lowerChar

/-! ### DatabaseManager.execute_with_retry (src/Backend/main.py, lines 50-135)

The constants of main.py.  `RETRY_DELAY = 0.1` (a Python float) is the
exact rational 1/10. -/

def MAX_RETRIES : Nat := 3

def RETRY_DELAY : ℚ := 1 / 10

/-- A database row, as returned by the driver (its contents are opaque
to `execute_with_retry`; a list of column strings suffices). -/
abbrev Row := List String

/-- What one physical attempt of the try-body does, as decided by the
outside world: the `os.path.exists` check fails (`FileNotFoundError`),
the driver raises `sqlite3.DatabaseError` with some message, some other
exception escapes, or the query succeeds with the cursor's rows. -/
inductive AttemptOutcome where
  | fileNotFound
  | dbError (msg : String)
  | otherError (msg : String)
  | success (rows : List Row)

/-- The value `execute_with_retry` returns on success: `result` starts
as `None`, is set to `fetchone()` when `fetch_one` (first row or
`None`), else to `fetchall()` when `fetch_all`. -/
inductive QueryValue where
  | noValue
  | row (r : Row)
  | rows (rs : List Row)
deriving DecidableEq, Repr

/-- `result = None; if fetch_one: result = fetchone(); elif fetch_all:
result = fetchall(); return result` of the try-body. -/
def fetchResult (fetch_one fetch_all : Bool) (rows : List Row) : QueryValue :=
  if fetch_one then
    match rows.head? with
    | some r => .row r
    | none => .noValue
  else if fetch_all then .rows rows
  else .noValue

/-- How `execute_with_retry` terminates: the returned value, or one of
its distinct raised errors, each carrying the raised message. -/
inductive DbOutcome where
  | ok (v : QueryValue)
  | corrupted (detail : String)
  | schemaMissing (detail : String)
  | fileNotAccessible (detail : String)
  | dbErrorFinal (detail : String)
  | connectionFailed (detail : String)
  | retriesExhausted (detail : String)
deriving DecidableEq, Repr

/-- Result of a run of `execute_with_retry`: its outcome, the list of
durations passed to `asyncio.sleep` in order, and the number of
physical attempts performed. -/
structure RunResult where
  outcome : DbOutcome
  sleeps : List ℚ
  attemptsMade : Nat
deriving DecidableEq, Repr

/-- The classification the `except sqlite3.DatabaseError` arm performs
on `error_msg = str(e).lower()`: an if/elif chain of substring tests,
in source order. -/
inductive DbErrorClass where
  | locked
  | malformed
  | noSuchTable
  | other
deriving DecidableEq, Repr

/-- The lock-contention signature matched by the retry arm. -/
def lockedSig : List Char := "database is locked".data

/-- The corruption signature matched by the fail-fast corruption arm. -/
def malformedSig : List Char := "database disk image is malformed".data

/-- The missing-schema signature matched by the fail-fast schema arm. -/
def noSuchTableSig : List Char := "no such table".data

/-- `if "database is locked" in error_msg: ... elif "database disk
image is malformed" in error_msg: ... elif "no such table" in
error_msg: ... else: ...` of main.py. -/
def classifyDbError (msg : String) : DbErrorClass :=
  if hasSub lockedSig (lowerStr msg) then .locked
  else if hasSub malformedSig (lowerStr msg) then .malformed
  else if hasSub noSuchTableSig (lowerStr msg) then .noSuchTable
  else .other

/-- `str(last_exception)` where `last_exception` may still be `None`. -/
def optStr : Option String → String
  | none => "None"
  | some s => s

def corruptedDetail : String :=
  "Database is corrupted. Please contact administrator to restore database."

def schemaMissingDetail : String :=
  "Required database tables not found. Please check database schema."

def fileNotAccessibleDetail : String :=
  "Database file not accessible. Please check network connection and file permissions."

def exhaustedDetail (last : Option String) : String :=
  "Database operation failed after " ++ toString MAX_RETRIES
    ++ " attempts. Last error: " ++ optStr last

/-- The `for attempt in range(MAX_RETRIES)` loop of
`execute_with_retry`, one equation per control path of the loop body.
`idxs` is the list of remaining loop indices (initially
`range MAX_RETRIES`), `sleeps` the slept durations so far, `last` the
current `last_exception`.  Reaching `[]` is falling off the loop, which
raises the aggregate exhausted-retries error. -/
def execRetryGo (oracle : Nat → AttemptOutcome) (fetch_one fetch_all commit : Bool) :
    List Nat → List ℚ → Option String → RunResult
  | [], sleeps, last =>
      ⟨.retriesExhausted (exhaustedDetail last), sleeps, MAX_RETRIES⟩
  | attempt :: rest, sleeps, _last =>
      match oracle attempt with
      | .fileNotFound =>
          ⟨.fileNotAccessible fileNotAccessibleDetail, sleeps, attempt + 1⟩
      | .success rows =>
          ⟨.ok (fetchResult fetch_one fetch_all rows), sleeps, attempt + 1⟩
      | .dbError msg =>
          match classifyDbError msg with
          | .locked =>
              if rest.isEmpty then
                execRetryGo oracle fetch_one fetch_all commit rest sleeps (some msg)
              else
                execRetryGo oracle fetch_one fetch_all commit rest
                  (sleeps ++ [RETRY_DELAY * 2 ^ attempt]) (some msg)
          | .malformed => ⟨.corrupted corruptedDetail, sleeps, attempt + 1⟩
          | .noSuchTable => ⟨.schemaMissing schemaMissingDetail, sleeps, attempt + 1⟩
          | .other =>
              if rest.isEmpty then
                ⟨.dbErrorFinal ("Database error: " ++ msg), sleeps, attempt + 1⟩
              else
                execRetryGo oracle fetch_one fetch_all commit rest
                  (sleeps ++ [RETRY_DELAY * 2 ^ attempt]) (some msg)
      | .otherError msg =>
          if rest.isEmpty then
            ⟨.connectionFailed ("Database connection failed: " ++ msg), sleeps, attempt + 1⟩
          else
            execRetryGo oracle fetch_one fetch_all commit rest
              (sleeps ++ [RETRY_DELAY * 2 ^ attempt]) (some msg)

/-- `DatabaseManager.execute_with_retry(query, params, fetch_one,
fetch_all, commit)`.  The query and params only influence the oracle's
outcomes, so they are absorbed into it. -/
def execute_with_retry (oracle : Nat → AttemptOutcome)
    (fetch_one fetch_all commit : Bool) : RunResult :=
  execRetryGo oracle fetch_one fetch_all commit (List.range MAX_RETRIES) [] none

/-- An attempt outcome the loop reacts to by backing off and retrying
(when attempts remain): a lock-contention or unclassified database
error, or any non-database exception. -/
def attemptRetryable : AttemptOutcome → Bool
  | .dbError m =>
      match classifyDbError m with
      | .locked => true
      | .other => true
      | _ => false
  | .otherError _ => true
  | _ => false

/-- The message recorded into `last_exception` by a retryable attempt. -/
def attemptMsg : AttemptOutcome → Option String
  | .dbError m => some m
  | .otherError m => some m
  | _ => none

/-- The back-off schedule: delays slept before attempts 2..k+1. -/
def backoffs (k : Nat) : List ℚ :=
  (List.range k).map fun i => RETRY_DELAY * 2 ^ i

/-- `last_exception` as it stands when attempt `k` starts: `None`
before the first attempt, afterwards the previous attempt's message. -/
def lastBefore (oracle : Nat → AttemptOutcome) : Nat → Option String
  | 0 => none
  | k + 1 => attemptMsg (oracle k)

/-- A retryable attempt that is not the last one backs off and moves to
the next loop index, recording its exception. -/
theorem execRetryGo_retry_cons (oracle : Nat → AttemptOutcome)
    (fo fa cm : Bool) (i j : Nat) (rest : List Nat) (sleeps : List ℚ)
    (last : Option String) (h : attemptRetryable (oracle i) = true) :
    execRetryGo oracle fo fa cm (i :: j :: rest) sleeps last
      = execRetryGo oracle fo fa cm (j :: rest)
          (sleeps ++ [RETRY_DELAY * 2 ^ i]) (attemptMsg (oracle i)) := by
  rcases ho : oracle i with _ | m | m | rows
  · simp [attemptRetryable, ho] at h
  · rcases hc : classifyDbError m with _ | _ | _ | _ <;>
      simp [attemptRetryable, ho, hc] at h <;>
      simp [execRetryGo, ho, hc, attemptMsg]
  · simp [execRetryGo, ho, attemptMsg]
  · simp [attemptRetryable, ho] at h

/-- A non-retryable attempt ends the run at once, with no further sleep
and no further attempt. -/
theorem execRetryGo_stop (oracle : Nat → AttemptOutcome)
    (fo fa cm : Bool) (i : Nat) (rest : List Nat) (sleeps : List ℚ)
    (last : Option String) (h : attemptRetryable (oracle i) = false) :
    ∃ o, execRetryGo oracle fo fa cm (i :: rest) sleeps last = ⟨o, sleeps, i + 1⟩ := by
  rcases ho : oracle i with _ | m | m | rows
  · exact ⟨.fileNotAccessible fileNotAccessibleDetail, by simp [execRetryGo, ho]⟩
  · rcases hc : classifyDbError m with _ | _ | _ | _
    · simp [attemptRetryable, ho, hc] at h
    · exact ⟨.corrupted corruptedDetail, by simp [execRetryGo, ho, hc]⟩
    · exact ⟨.schemaMissing schemaMissingDetail, by simp [execRetryGo, ho, hc]⟩
    · simp [attemptRetryable, ho, hc] at h
  · simp [attemptRetryable, ho] at h
  · exact ⟨.ok (fetchResult fo fa rows), by simp [execRetryGo, ho]⟩

/-- Whatever the last loop iteration does, the run ends with three
attempts made and no sleep after the third attempt. -/
theorem execRetryGo_final (oracle : Nat → AttemptOutcome)
    (fo fa cm : Bool) (sleeps : List ℚ) (last : Option String) :
    ∃ o, execRetryGo oracle fo fa cm [2] sleeps last = ⟨o, sleeps, 3⟩ := by
  rcases ho : oracle 2 with _ | m | m | rows
  · exact ⟨.fileNotAccessible fileNotAccessibleDetail, by simp [execRetryGo, ho]⟩
  · rcases hc : classifyDbError m with _ | _ | _ | _
    · exact ⟨.retriesExhausted (exhaustedDetail (some m)),
        by simp [execRetryGo, ho, hc, MAX_RETRIES]⟩
    · exact ⟨.corrupted corruptedDetail, by simp [execRetryGo, ho, hc]⟩
    · exact ⟨.schemaMissing schemaMissingDetail, by simp [execRetryGo, ho, hc]⟩
    · exact ⟨.dbErrorFinal ("Database error: " ++ m), by simp [execRetryGo, ho, hc]⟩
  · exact ⟨.connectionFailed ("Database connection failed: " ++ m),
      by simp [execRetryGo, ho]⟩
  · exact ⟨.ok (fetchResult fo fa rows), by simp [execRetryGo, ho]⟩

/-- If every attempt before `k` is retryable, the run reaches attempt
`k` having slept exactly the exponential back-off schedule. -/
theorem execute_reaches (oracle : Nat → AttemptOutcome) (fo fa cm : Bool)
    (k : Nat) (hk : k < MAX_RETRIES)
    (hprev : ∀ i < k, attemptRetryable (oracle i) = true) :
    execute_with_retry oracle fo fa cm
      = execRetryGo oracle fo fa cm (List.range' k (MAX_RETRIES - k))
          (backoffs k) (lastBefore oracle k) := by
  rw [show MAX_RETRIES = 3 from rfl] at hk
  interval_cases k
  · rfl
  · have h0 := hprev 0 (by omega)
    rw [execute_with_retry, show List.range MAX_RETRIES = [0, 1, 2] from rfl,
      execRetryGo_retry_cons oracle fo fa cm 0 1 [2] [] none h0]
    rfl
  · have h0 := hprev 0 (by omega)
    have h1 := hprev 1 (by omega)
    rw [execute_with_retry, show List.range MAX_RETRIES = [0, 1, 2] from rfl,
      execRetryGo_retry_cons oracle fo fa cm 0 1 [2] [] none h0,
      execRetryGo_retry_cons oracle fo fa cm 1 2 [] _ _ h1]
    rfl

/-- Unfolding of the remaining loop indices when attempt `k` exists. -/
theorem range'_max_cons (k : Nat) (hk : k < MAX_RETRIES) :
    List.range' k (MAX_RETRIES - k) = k :: List.range' (k + 1) (MAX_RETRIES - (k + 1)) := by
  rw [show MAX_RETRIES = 3 from rfl] at hk ⊢
  interval_cases k <;> rfl

/-- C2: if every physical attempt raises a database error whose lowered
message contains "database is locked", `execute_with_retry` makes
exactly MAX_RETRIES = 3 attempts, sleeps baseDelay×1 then baseDelay×2
between them (total baseDelay×(1+2)), and raises the aggregate
exhausted-retries error naming the attempt count and carrying the last
underlying message. -/
theorem execute_with_retry_locked_exhausted
    (oracle : Nat → AttemptOutcome) (fo fa cm : Bool) (m0 m1 m2 : String)
    (h0 : oracle 0 = .dbError m0) (hl0 : hasSub lockedSig (lowerStr m0) = true)
    (h1 : oracle 1 = .dbError m1) (hl1 : hasSub lockedSig (lowerStr m1) = true)
    (h2 : oracle 2 = .dbError m2) (hl2 : hasSub lockedSig (lowerStr m2) = true) :
    execute_with_retry oracle fo fa cm
      = ⟨.retriesExhausted
            ("Database operation failed after 3 attempts. Last error: " ++ m2),
          [RETRY_DELAY * 1, RETRY_DELAY * 2], 3⟩
      ∧ RETRY_DELAY * 1 + RETRY_DELAY * 2 = RETRY_DELAY * (1 + 2) := by
  have hc0 : classifyDbError m0 = .locked := by simp [classifyDbError, hl0]
  have hc1 : classifyDbError m1 = .locked := by simp [classifyDbError, hl1]
  have hc2 : classifyDbError m2 = .locked := by simp [classifyDbError, hl2]
  have r0 : attemptRetryable (oracle 0) = true := by simp [attemptRetryable, h0, hc0]
  have r1 : attemptRetryable (oracle 1) = true := by simp [attemptRetryable, h1, hc1]
  constructor
  · rw [execute_with_retry, show List.range MAX_RETRIES = [0, 1, 2] from rfl,
      execRetryGo_retry_cons oracle fo fa cm 0 1 [2] [] none r0,
      execRetryGo_retry_cons oracle fo fa cm 1 2 [] _ _ r1]
    have hm1 : attemptMsg (oracle 1) = some m1 := by simp [attemptMsg, h1]
    rw [hm1]
    have hfin : execRetryGo oracle fo fa cm [2]
        (([] ++ [RETRY_DELAY * 2 ^ 0]) ++ [RETRY_DELAY * 2 ^ 1]) (some m1)
        = ⟨.retriesExhausted (exhaustedDetail (some m2)),
            ([] ++ [RETRY_DELAY * 2 ^ 0]) ++ [RETRY_DELAY * 2 ^ 1], MAX_RETRIES⟩ := by
      simp [execRetryGo, h2, hc2]
    rw [hfin]
    have hsl : (([] ++ [RETRY_DELAY * 2 ^ 0]) ++ [RETRY_DELAY * 2 ^ 1] : List ℚ)
        = [RETRY_DELAY * 1, RETRY_DELAY * 2] := by
      norm_num
    rw [hsl]
    rfl
  · ring

/-- C2 witness: the all-locked run at a concrete oracle. -/
theorem execute_with_retry_locked_exhausted_witness :
    execute_with_retry (fun _ => .dbError "database is locked") false false false
      = ⟨.retriesExhausted
            ("Database operation failed after 3 attempts. Last error: "
              ++ "database is locked"),
          [RETRY_DELAY * 1, RETRY_DELAY * 2], 3⟩ := by
  exact (execute_with_retry_locked_exhausted (fun _ => .dbError "database is locked")
    false false false "database is locked" "database is locked" "database is locked"
    rfl (by decide) rfl (by decide) rfl (by decide)).1

/-- C3 counterexample: a message containing the corruption signature is
nevertheless retried to exhaustion (with back-off sleeps) when it also
contains the lock signature, because the if/elif chain tests the lock
signature first.  So "contains the corruption signature implies failing
immediately with the corrupted error and zero further attempts" is
false as stated. -/
theorem fatal_signature_not_immediate_counterexample :
    hasSub malformedSig
        (lowerStr "database is locked: database disk image is malformed") = true
    ∧ execute_with_retry
        (fun _ => .dbError "database is locked: database disk image is malformed")
        false false false
      = ⟨.retriesExhausted
            (exhaustedDetail
              (some "database is locked: database disk image is malformed")),
          [RETRY_DELAY * 2 ^ 0, RETRY_DELAY * 2 ^ 1], 3⟩ := by
  exact ⟨by decide, rfl⟩

/-- C3 (amended): a fatal-class attempt ends the run at once — zero
further attempts, no back-off sleep — provided no earlier arm of the
if/elif chain claims the message first: corruption requires the lock
signature to be absent, and missing-schema requires both the lock and
corruption signatures to be absent.  A missing backing file is
unconditional. -/
theorem execute_with_retry_fatal_classes
    (oracle : Nat → AttemptOutcome) (fo fa cm : Bool) (k : Nat)
    (hk : k < MAX_RETRIES)
    (hprev : ∀ i < k, attemptRetryable (oracle i) = true) :
    (oracle k = .fileNotFound →
        execute_with_retry oracle fo fa cm
          = ⟨.fileNotAccessible fileNotAccessibleDetail, backoffs k, k + 1⟩)
    ∧ (∀ m, oracle k = .dbError m →
        hasSub malformedSig (lowerStr m) = true →
        hasSub lockedSig (lowerStr m) = false →
        execute_with_retry oracle fo fa cm
          = ⟨.corrupted corruptedDetail, backoffs k, k + 1⟩)
    ∧ (∀ m, oracle k = .dbError m →
        hasSub noSuchTableSig (lowerStr m) = true →
        hasSub lockedSig (lowerStr m) = false →
        hasSub malformedSig (lowerStr m) = false →
        execute_with_retry oracle fo fa cm
          = ⟨.schemaMissing schemaMissingDetail, backoffs k, k + 1⟩) := by
  have hreach := execute_reaches oracle fo fa cm k hk hprev
  rw [range'_max_cons k hk] at hreach
  refine ⟨?_, ?_, ?_⟩
  · intro h
    rw [hreach]
    simp [execRetryGo, h]
  · intro m hm hmal hlock
    have hc : classifyDbError m = .malformed := by simp [classifyDbError, hmal, hlock]
    rw [hreach]
    simp [execRetryGo, hm, hc]
  · intro m hm htab hlock hmal
    have hc : classifyDbError m = .noSuchTable := by
      simp [classifyDbError, htab, hlock, hmal]
    rw [hreach]
    simp [execRetryGo, hm, hc]

/-- C3 witness: a missing backing file on the first attempt fails at
once with the file-not-accessible error, zero sleeps, one attempt. -/
theorem execute_with_retry_fatal_classes_witness :
    execute_with_retry (fun _ => .fileNotFound) false false false
      = ⟨.fileNotAccessible fileNotAccessibleDetail, backoffs 0, 0 + 1⟩ := by
  exact (execute_with_retry_fatal_classes (fun _ => .fileNotFound) false false false 0
    (by norm_num [MAX_RETRIES]) (fun i hi => absurd hi (by omega))).1 rfl

/-- C4: every run makes at most MAX_RETRIES = 3 physical attempts, its
sleeps are exactly the exponential back-off schedule (one sleep before
each attempt after the first), and for k ≥ 2 the delay slept before
attempt k is RETRY_DELAY × 2^(k-2) — so the delay doubles between
consecutive attempts. -/
theorem execute_with_retry_backoff_schedule
    (oracle : Nat → AttemptOutcome) (fo fa cm : Bool) :
    (execute_with_retry oracle fo fa cm).attemptsMade ≤ MAX_RETRIES
    ∧ (execute_with_retry oracle fo fa cm).sleeps
        = backoffs ((execute_with_retry oracle fo fa cm).attemptsMade - 1)
    ∧ ∀ k, 2 ≤ k → k ≤ (execute_with_retry oracle fo fa cm).attemptsMade →
        (execute_with_retry oracle fo fa cm).sleeps[k - 2]?
          = some (RETRY_DELAY * 2 ^ (k - 2)) := by
  cases hr0 : attemptRetryable (oracle 0) with
  | false =>
      obtain ⟨o, ho⟩ := execRetryGo_stop oracle fo fa cm 0 [1, 2] [] none hr0
      have hrun : execute_with_retry oracle fo fa cm = ⟨o, [], 1⟩ := by
        rw [execute_with_retry, show List.range MAX_RETRIES = [0, 1, 2] from rfl]
        exact ho
      rw [hrun]
      refine ⟨by norm_num [MAX_RETRIES], by rfl, ?_⟩
      intro k hk2 hk1
      exact absurd (hk2.trans hk1) (by norm_num)
  | true =>
      have hstep0 := execRetryGo_retry_cons oracle fo fa cm 0 1 [2] [] none hr0
      cases hr1 : attemptRetryable (oracle 1) with
      | false =>
          obtain ⟨o, ho⟩ := execRetryGo_stop oracle fo fa cm 1 [2]
            ([] ++ [RETRY_DELAY * 2 ^ 0]) (attemptMsg (oracle 0)) hr1
          have hrun : execute_with_retry oracle fo fa cm
              = ⟨o, [] ++ [RETRY_DELAY * 2 ^ 0], 2⟩ := by
            rw [execute_with_retry, show List.range MAX_RETRIES = [0, 1, 2] from rfl,
              hstep0]
            exact ho
          rw [hrun]
          refine ⟨by norm_num [MAX_RETRIES], by rfl, ?_⟩
          intro k hk2 hk1
          replace hk1 : k ≤ 2 := hk1
          have hke : k = 2 := by omega
          subst hke
          rfl
      | true =>
          have hstep1 := execRetryGo_retry_cons oracle fo fa cm 1 2 []
            ([] ++ [RETRY_DELAY * 2 ^ 0]) (attemptMsg (oracle 0)) hr1
          obtain ⟨o, ho⟩ := execRetryGo_final oracle fo fa cm
            (([] ++ [RETRY_DELAY * 2 ^ 0]) ++ [RETRY_DELAY * 2 ^ 1]) (attemptMsg (oracle 1))
          have hrun : execute_with_retry oracle fo fa cm
              = ⟨o, ([] ++ [RETRY_DELAY * 2 ^ 0]) ++ [RETRY_DELAY * 2 ^ 1], 3⟩ := by
            rw [execute_with_retry, show List.range MAX_RETRIES = [0, 1, 2] from rfl,
              hstep0, hstep1]
            exact ho
          rw [hrun]
          refine ⟨by norm_num [MAX_RETRIES], by rfl, ?_⟩
          intro k hk2 hk1
          replace hk1 : k ≤ 3 := hk1
          have hke : k = 2 ∨ k = 3 := by omega
          rcases hke with rfl | rfl
          · rfl
          · rfl

/-- C4 witness: at a concrete always-locked oracle, the delay slept
before attempt 2 is RETRY_DELAY × 2^0. -/
theorem execute_with_retry_backoff_schedule_witness :
    (execute_with_retry (fun _ => .dbError "database is locked")
        false false false).sleeps[2 - 2]?
      = some (RETRY_DELAY * 2 ^ (2 - 2)) := by
  exact (execute_with_retry_backoff_schedule (fun _ => .dbError "database is locked")
    false false false).2.2 2 (by norm_num) (by decide)

/-- C10: with both fetch flags false, a successful run returns `None`
(no value), whatever rows the cursor would have produced. -/
theorem execute_with_retry_no_fetch_flags
    (oracle : Nat → AttemptOutcome) (cm : Bool) (k : Nat) (rows : List Row)
    (hk : k < MAX_RETRIES)
    (hprev : ∀ i < k, attemptRetryable (oracle i) = true)
    (hs : oracle k = .success rows) :
    execute_with_retry oracle false false cm = ⟨.ok .noValue, backoffs k, k + 1⟩ := by
  have hreach := execute_reaches oracle false false cm k hk hprev
  rw [range'_max_cons k hk] at hreach
  rw [hreach]
  simp [execRetryGo, hs, fetchResult]

/-- C10 witness: a first-attempt success that produces two rows still
returns no value when neither fetch flag is set. -/
theorem execute_with_retry_no_fetch_flags_witness :
    execute_with_retry (fun _ => .success [["1"], ["2"]]) false false true
      = ⟨.ok .noValue, backoffs 0, 0 + 1⟩ := by
  exact execute_with_retry_no_fetch_flags (fun _ => .success [["1"], ["2"]]) true 0
    [["1"], ["2"]] (by norm_num [MAX_RETRIES]) (fun i hi => absurd hi (by omega)) rfl

/-! ### JSON codec for flat string-field objects

`send_prompt` serializes its request envelope with `json.dumps` and
parses the inbound reply with `json.loads`.  Both envelope and reply
are flat JSON objects whose fields are strings, so the codec is
modelled for exactly that fragment: objects rendered with `json.dumps`'
default separators (", " and ": ") and standard string escaping.
(`json.dumps`' default `ensure_ascii` transform of non-ASCII characters
is inessential to any property proved here and is not applied:
non-ASCII characters are emitted literally.) -/

/-- The lower-case hex digit for `d < 16`, as in `\uXXXX` escapes. -/
def hexDigitChar (d : Nat) : Char :=
  if d < 10 then Char.ofNat ('0'.toNat + d) else Char.ofNat ('a'.toNat + d - 10)

/-- Value of one hex digit character. -/
def hexDigitVal (c : Char) : Option Nat :=
  if '0' ≤ c ∧ c ≤ '9' then some (c.toNat - '0'.toNat)
  else if 'a' ≤ c ∧ c ≤ 'f' then some (c.toNat - 'a'.toNat + 10)
  else if 'A' ≤ c ∧ c ≤ 'F' then some (c.toNat - 'A'.toNat + 10)
  else none

/-- Value of a four-digit hex escape body. -/
def hexQuad (a b c d : Char) : Option Nat := do
  let va ← hexDigitVal a
  let vb ← hexDigitVal b
  let vc ← hexDigitVal c
  let vd ← hexDigitVal d
  pure (((va * 16 + vb) * 16 + vc) * 16 + vd)

/-- JSON escaping of one character: the two-character short escapes of
the JSON string grammar, `\u00XX` for the remaining control characters,
and everything else literal. -/
def escapeChar (c : Char) : List Char :=
  if c = '"' then ['\\', '"']
  else if c = '\\' then ['\\', '\\']
  else if c = '\n' then ['\\', 'n']
  else if c = '\r' then ['\\', 'r']
  else if c = '\t' then ['\\', 't']
  else if c = Char.ofNat 8 then ['\\', 'b']
  else if c = Char.ofNat 12 then ['\\', 'f']
  else if c.toNat < 32 then
    ['\\', 'u', '0', '0', hexDigitChar (c.toNat / 16), hexDigitChar (c.toNat % 16)]
  else [c]

/-- JSON escaping of a whole string body. -/
def escapeStr : List Char → List Char
  | [] => []
  | c :: cs => escapeChar c ++ escapeStr cs

/-- A quoted JSON string literal. -/
def quoteStr (s : List Char) : List Char :=
  '"' :: (escapeStr s ++ ['"'])

/-- The meaning of one short escape character after a backslash. -/
def shortEscape (e : Char) : Option Char :=
  if e = '"' then some '"'
  else if e = '\\' then some '\\'
  else if e = 'n' then some '\n'
  else if e = 'r' then some '\r'
  else if e = 't' then some '\t'
  else if e = 'b' then some (Char.ofNat 8)
  else if e = 'f' then some (Char.ofNat 12)
  else none

/-- Prepend a decoded character to a string-body parse result. -/
def consParsed (c : Char) :
    Option (List Char × List Char) → Option (List Char × List Char)
  | some (s, r) => some (c :: s, r)
  | none => none

/-- Parse the body of a JSON string after its opening quote, returning
the decoded content and the input after the closing quote. -/
def parseStrBody : List Char → Option (List Char × List Char)
  | '"' :: rest => some ([], rest)
  | '\\' :: 'u' :: a :: b :: c :: d :: rest =>
      match hexQuad a b c d with
      | some n => consParsed (Char.ofNat n) (parseStrBody rest)
      | none => none
  | '\\' :: e :: rest =>
      match shortEscape e with
      | some ch => consParsed ch (parseStrBody rest)
      | none => none
  | c :: rest => consParsed c (parseStrBody rest)
  | [] => none

/-- Render a flat object's members with `json.dumps`' default
separators: `"key": "value"` joined by `", "`. -/
def renderMembers : List (List Char × List Char) → List Char
  | [] => []
  | [(k, v)] => quoteStr k ++ ':' :: ' ' :: quoteStr v
  | (k, v) :: kv :: rest =>
      quoteStr k ++ ':' :: ' ' :: quoteStr v ++ ',' :: ' ' :: renderMembers (kv :: rest)

/-- `json.dumps` of a flat object with string fields. -/
def dumpsFlat (fields : List (String × String)) : String :=
  ⟨'{' :: (renderMembers (fields.map fun kv => (kv.1.data, kv.2.data)) ++ ['}'])⟩

/-- Parse the members of a flat object after its opening brace (fuelled
by the input length; each member consumes one unit). -/
def parseMembers : Nat → List Char → Option (List (List Char × List Char) × List Char)
  | 0, _ => none
  | fuel + 1, '"' :: rest =>
      match parseStrBody rest with
      | none => none
      | some (k, rest1) =>
          match rest1 with
          | ':' :: ' ' :: '"' :: rest2 =>
              match parseStrBody rest2 with
              | none => none
              | some (v, rest3) =>
                  match rest3 with
                  | ',' :: ' ' :: rest4 =>
                      match parseMembers fuel rest4 with
                      | some (kvs, r) => some ((k, v) :: kvs, r)
                      | none => none
                  | '}' :: rest4 => some ([(k, v)], rest4)
                  | _ => none
          | _ => none
  | _ + 1, _ => none

/-- `json.loads` of a flat object with string fields: the whole input
must be consumed. -/
def loadsFlat (s : String) : Option (List (String × String)) :=
  match s.data with
  | '{' :: '}' :: [] => some []
  | '{' :: rest =>
      match parseMembers s.data.length rest with
      | some (kvs, []) => some (kvs.map fun kv => (⟨kv.1⟩, ⟨kv.2⟩))
      | _ => none
  | _ => none

example : dumpsFlat [("a", "x\"y"), ("b", "")] = "\x7b\"a\": \"x\\\"y\", \"b\": \"\"\x7d" := by
  rfl

/-- Encoding a control character below 32 as two hex digits is undone
by `hexQuad` (with the two leading zero digits). -/
theorem hexQuad_encode (n : Nat) (h : n < 32) :
    hexQuad '0' '0' (hexDigitChar (n / 16)) (hexDigitChar (n % 16)) = some n := by
  interval_cases n <;> rfl

/-- A character that needs no escaping parses as itself. -/
theorem parseStrBody_cons_plain (c : Char) (rest : List Char)
    (h1 : c ≠ '"') (h2 : c ≠ '\\') :
    parseStrBody (c :: rest) = consParsed c (parseStrBody rest) := by
  rw [parseStrBody.eq_def]
  simp [h1, h2]

/-- Parsing one escaped character undoes `escapeChar`. -/
theorem parseStrBody_escapeChar (c : Char) (rest : List Char) :
    parseStrBody (escapeChar c ++ rest) = consParsed c (parseStrBody rest) := by
  by_cases h1 : c = '"'
  · subst h1; rfl
  by_cases h2 : c = '\\'
  · subst h2; rfl
  by_cases h3 : c = '\n'
  · subst h3; rfl
  by_cases h4 : c = '\r'
  · subst h4; rfl
  by_cases h5 : c = '\t'
  · subst h5; rfl
  by_cases h6 : c = Char.ofNat 8
  · subst h6; rfl
  by_cases h7 : c = Char.ofNat 12
  · subst h7; rfl
  by_cases h8 : c.toNat < 32
  · rw [show escapeChar c
        = ['\\', 'u', '0', '0', hexDigitChar (c.toNat / 16), hexDigitChar (c.toNat % 16)]
      from by simp [escapeChar, h1, h2, h3, h4, h5, h6, h7, h8]]
    simp only [List.cons_append, List.nil_append, parseStrBody,
      hexQuad_encode c.toNat h8, Char.ofNat_toNat]
    rfl
  · rw [show escapeChar c = [c] from by simp [escapeChar, h1, h2, h3, h4, h5, h6, h7, h8]]
    simpa using parseStrBody_cons_plain c rest h1 h2

/-- Parsing an escaped string body stops exactly at the closing
quote, recovering the original content and the remainder. -/
theorem parseStrBody_escapeStr (s : List Char) :
    ∀ rest : List Char, parseStrBody (escapeStr s ++ '"' :: rest) = some (s, rest) := by
  induction s with
  | nil => intro rest; rfl
  | cons c cs ih =>
      intro rest
      rw [escapeStr, List.append_assoc, parseStrBody_escapeChar, ih]
      rfl

/-- A quoted string followed by anything, in head-normal form. -/
theorem quoteStr_append (s t : List Char) :
    quoteStr s ++ t = '"' :: (escapeStr s ++ '"' :: t) := by
  simp [quoteStr]

/-- Each member costs at least one character to render. -/
theorem length_renderMembers (kvs : List (List Char × List Char)) :
    kvs.length ≤ (renderMembers kvs).length := by
  induction kvs with
  | nil => simp [renderMembers]
  | cons kv rest ih =>
      rcases kv with ⟨k, v⟩
      cases rest with
      | nil => simp [renderMembers, quoteStr]
      | cons kv2 rest2 =>
          rw [show renderMembers ((k, v) :: kv2 :: rest2)
              = quoteStr k ++ ':' :: ' ' :: quoteStr v ++ ',' :: ' ' ::
                  renderMembers (kv2 :: rest2) from rfl]
          simp only [quoteStr, List.length_append, List.length_cons] at ih ⊢
          omega

/-- Parsing rendered members undoes `renderMembers`, given fuel at
least the member count. -/
theorem parseMembers_renderMembers (kvs : List (List Char × List Char))
    (hne : kvs ≠ []) :
    ∀ (fuel : Nat), kvs.length ≤ fuel → ∀ rest : List Char,
      parseMembers fuel (renderMembers kvs ++ '}' :: rest) = some (kvs, rest) := by
  induction kvs with
  | nil => exact absurd rfl hne
  | cons kv tail ih =>
      rcases kv with ⟨k, v⟩
      intro fuel hf rest
      obtain ⟨f, rfl⟩ : ∃ f, fuel = f + 1 := by
        cases fuel with
        | zero => simp at hf
        | succ f => exact ⟨f, rfl⟩
      cases tail with
      | nil =>
          rw [show renderMembers [(k, v)] ++ '}' :: rest
              = '"' :: (escapeStr k ++ '"' ::
                  (':' :: ' ' :: ('"' :: (escapeStr v ++ '"' :: ('}' :: rest)))))
            from by simp [renderMembers, quoteStr]]
          simp only [parseMembers, parseStrBody_escapeStr]
      | cons kv2 tail2 =>
          rw [show renderMembers ((k, v) :: kv2 :: tail2) ++ '}' :: rest
              = '"' :: (escapeStr k ++ '"' ::
                  (':' :: ' ' :: ('"' :: (escapeStr v ++ '"' ::
                    (',' :: ' ' :: (renderMembers (kv2 :: tail2) ++ '}' :: rest))))))
            from by simp [renderMembers, quoteStr]]
          simp only [parseMembers, parseStrBody_escapeStr]
          rw [ih (by simp) f (by simp at hf ⊢; omega) rest]

/-- Rendered members of a non-empty object start with a quote. -/
theorem renderMembers_head (kv : List Char × List Char)
    (tail : List (List Char × List Char)) :
    ∃ t, renderMembers (kv :: tail) = '"' :: t := by
  rcases kv with ⟨k, v⟩
  cases tail with
  | nil =>
      exact ⟨escapeStr k ++ '"' :: (':' :: ' ' :: quoteStr v),
        by simp [renderMembers, quoteStr]⟩
  | cons kv2 tail2 =>
      exact ⟨escapeStr k ++ '"' :: (':' :: ' ' ::
          (quoteStr v ++ ',' :: ' ' :: renderMembers (kv2 :: tail2))),
        by simp [renderMembers, quoteStr]⟩

/-- C9 codec core: `json.loads` undoes `json.dumps` on every flat
string-field object. -/
theorem loadsFlat_dumpsFlat (fields : List (String × String)) :
    loadsFlat (dumpsFlat fields) = some fields := by
  cases fields with
  | nil => rfl
  | cons f tail =>
      obtain ⟨t, ht⟩ := renderMembers_head (f.1.data, f.2.data)
        (tail.map fun kv => (kv.1.data, kv.2.data))
      have hlen := length_renderMembers
        ((f.1.data, f.2.data) :: tail.map fun kv => (kv.1.data, kv.2.data))
      have hparse := parseMembers_renderMembers
        ((f.1.data, f.2.data) :: tail.map fun kv => (kv.1.data, kv.2.data))
        (by simp) (t.length + 3)
        (by rw [ht] at hlen; simp only [List.length_cons] at hlen ⊢; omega) []
      rw [ht] at hparse
      simp only [List.cons_append] at hparse
      have hdata : (dumpsFlat (f :: tail)).data = '{' :: '"' :: (t ++ ['}']) := by
        rw [dumpsFlat]
        simp only [List.map_cons]
        rw [ht]
        simp
      have hlen2 : (dumpsFlat (f :: tail)).data.length = t.length + 3 := by
        rw [hdata]
        simp
      rw [loadsFlat, hlen2, hdata]
      show (match parseMembers (t.length + 3) ('"' :: (t ++ ['}'])) with
        | some (kvs, []) => some (kvs.map fun kv => ((⟨kv.1⟩ : String), (⟨kv.2⟩ : String)))
        | _ => none) = some (f :: tail)
      rw [show ('"' : Char) :: (t ++ ['}']) = '"' :: (t ++ '}' :: []) from rfl, hparse]
      simp only [List.map_map, List.map_cons]
      show some (f :: tail.map id) = some (f :: tail)
      rw [List.map_id]

example :
    loadsFlat "\x7b\"a\": \"x\\\"y\", \"b\": \"\"\x7d" = some [("a", "x\"y"), ("b", "")] := by
  rfl

/-! ### VSCodeBridgeManager (src/Backend/main.py lines 302-381 and
src/Backend/main_multi_model.py lines 122-194)

The manager's mutable state is `ws_client` (the transport object, or
`None`) and `is_connected`.  The transport itself and the wall clock
are external: a `BridgeEnv` oracle fixes whether `websockets.connect`
succeeds, what `ws_client.send` and `ws_client.recv` do, and the
`datetime.now().isoformat()` string.  (main.py's `pending_requests`
dict is initialised empty and never touched, so it is not modelled.) -/

/-- Mutable state of a `VSCodeBridgeManager`. -/
structure BridgeState where
  ws_client : Option Unit
  is_connected : Bool
deriving DecidableEq, Repr

/-- What `ws_client.send` does: succeeds, raises
`websockets.exceptions.ConnectionClosed`, or raises something else. -/
inductive SendOutcome where
  | ok
  | closed
  | error (msg : String)
deriving DecidableEq, Repr

/-- What awaiting `ws_client.recv()` under `asyncio.wait_for` does:
delivers a raw message in time, times out, raises `ConnectionClosed`,
or raises something else. -/
inductive RecvOutcome where
  | message (raw : String)
  | timeout
  | closed
  | error (msg : String)
deriving DecidableEq, Repr

/-- The environment of one `send_prompt` call. -/
structure BridgeEnv where
  connectOk : Bool
  now : String
  sendOutcome : SendOutcome
  recvOutcome : RecvOutcome

/-- `VSCodeBridgeManager.connect()`: on success installs a fresh
transport and sets `is_connected`; on failure leaves `ws_client` as it
was and clears `is_connected`.  Returns the success flag. -/
def connect (connectOk : Bool) (st : BridgeState) : Bool × BridgeState :=
  if connectOk then (true, ⟨some (), true⟩)
  else (false, { st with is_connected := false })

/-- `VSCodeBridgeManager.disconnect()`: `if self.ws_client: await
self.ws_client.close(); self.is_connected = False`.  The transport
object itself stays referenced. -/
def disconnect (st : BridgeState) : BridgeState :=
  match st.ws_client with
  | some _ => { st with is_connected := false }
  | none => st

/-- The request envelope of main.py's `send_prompt`: `requestId` and
`timestamp` are both `datetime.now().isoformat()`. -/
structure CopilotMessage where
  type : String
  requestId : String
  prompt : String
  timestamp : String
deriving DecidableEq, Repr

/-- main.py lines 340-346: the message dict, in insertion order. -/
def mkMessage (now prompt : String) : CopilotMessage :=
  ⟨"copilot_request", now, prompt, now⟩

/-- The envelope's fields in the order `json.dumps` serializes them. -/
def messageFields (m : CopilotMessage) : List (String × String) :=
  [("type", m.type), ("requestId", m.requestId),
   ("prompt", m.prompt), ("timestamp", m.timestamp)]

/-- The request envelope of main_multi_model.py's `send_prompt`, with
the extra options `temperature` and `maxTokens` drawn from `kwargs`
with defaults 0.7 and 2000. -/
structure CopilotMessageMulti where
  type : String
  requestId : String
  prompt : String
  temperature : ℚ
  maxTokens : Nat
  timestamp : String
deriving DecidableEq, Repr

/-- main_multi_model.py lines 157-164. -/
def mkMessageMulti (now prompt : String)
    (temperature? : Option ℚ) (maxTokens? : Option Nat) : CopilotMessageMulti :=
  ⟨"copilot_request", now, prompt, temperature?.getD (7 / 10), maxTokens?.getD 2000, now⟩

/-- How a `send_prompt` call terminates: the parsed reply object, or an
`HTTPException` with status code and detail, or (multi-model only) a
re-raised non-HTTP exception. -/
inductive PromptOutcome where
  | ok (fields : List (String × String))
  | httpError (status : Nat) (detail : String)
  | raised (msg : String)
deriving DecidableEq, Repr

/-- Result of a `send_prompt` call on main.py's manager: outcome, the
manager state left behind, how many times `connect()` was invoked, and
the serialized messages written to the transport. -/
structure SendPromptResult where
  outcome : PromptOutcome
  state : BridgeState
  connectCalls : Nat
  sent : List String
deriving DecidableEq, Repr

/-- Result of a `send_prompt` call on main_multi_model.py's manager;
the written envelope is traced structurally (its float field keeps it
out of the flat string codec, which nothing here needs). -/
structure SendPromptResultMulti where
  outcome : PromptOutcome
  state : BridgeState
  connectCalls : Nat
  sent : List CopilotMessageMulti
deriving DecidableEq, Repr

def bridgeUnavailableDetail : String :=
  "VS Code Copilot bridge is not available. Please ensure the VS Code extension is running."

def bridgeClosedDetail : String := "Connection to VS Code bridge was closed"

/-- main.py's 504 detail. -/
def timeoutDetailMain (timeout : Nat) : String :=
  "Timeout waiting for Copilot response after " ++ toString timeout ++ " seconds"

/-- main_multi_model.py's 504 detail. -/
def timeoutDetailMulti (timeout : Nat) : String :=
  "Timeout waiting for response after " ++ toString timeout ++ " seconds"

/-- `str(e)` of a FastAPI/Starlette `HTTPException`:
`f"{status_code}: {detail}"`. -/
def httpExcStr (status : Nat) (detail : String) : String :=
  toString status ++ ": " ++ detail

/-- main.py's 500 detail, wrapping `str(e)`. -/
def wrapCommError (e : String) : String :=
  "Error communicating with VS Code bridge: " ++ e

/-- Stands in for `str` of the `json.JSONDecodeError` the external
`json` library raises on unparseable input; its exact wording is a
library detail no property here depends on. -/
def jsonDecodeErrorDetail : String := "Expecting value"

/-- The `try:`-body of main.py's `send_prompt` (lines 338-381), entered
with state `st` and `connects` prior `connect()` calls.  The inner
`except asyncio.TimeoutError` arm raises `HTTPException(504, ...)`
inside the outer `try`, so that exception falls through to the outer
`except Exception` arm (it is not a `ConnectionClosed`), which wraps it
into `HTTPException(500, f"Error communicating with VS Code bridge:
{str(e)}")`. -/
def sendPromptBodyMain (env : BridgeEnv) (st : BridgeState) (prompt : String)
    (timeout : Nat) (connects : Nat) : SendPromptResult :=
  let raw := dumpsFlat (messageFields (mkMessage env.now prompt))
  match env.sendOutcome with
  | .closed =>
      ⟨.httpError 503 bridgeClosedDetail, { st with is_connected := false }, connects, []⟩
  | .error m => ⟨.httpError 500 (wrapCommError m), st, connects, []⟩
  | .ok =>
      match env.recvOutcome with
      | .timeout =>
          ⟨.httpError 500 (wrapCommError (httpExcStr 504 (timeoutDetailMain timeout))),
            st, connects, [raw]⟩
      | .closed =>
          ⟨.httpError 503 bridgeClosedDetail, { st with is_connected := false },
            connects, [raw]⟩
      | .error m => ⟨.httpError 500 (wrapCommError m), st, connects, [raw]⟩
      | .message rawIn =>
          match loadsFlat rawIn with
          | some fields => ⟨.ok fields, st, connects, [raw]⟩
          | none =>
              ⟨.httpError 500 (wrapCommError jsonDecodeErrorDetail), st, connects, [raw]⟩

/-- main.py's `VSCodeBridgeManager.send_prompt(prompt, timeout)`
(lines 327-381): reconnect once if not connected, then run the body. -/
def sendPromptMain (env : BridgeEnv) (st : BridgeState) (prompt : String)
    (timeout : Nat) : SendPromptResult :=
  if st.is_connected then sendPromptBodyMain env st prompt timeout 0
  else
    let c := connect env.connectOk st
    if c.1 then sendPromptBodyMain env c.2 prompt timeout 1
    else ⟨.httpError 503 bridgeUnavailableDetail, c.2, 1, []⟩

/-- The `try:`-body of main_multi_model.py's `send_prompt` (lines
156-193).  Its outer `except Exception` arm re-raises the original
exception, so the inner `HTTPException(504, ...)` of the timeout arm
survives unchanged and any other exception propagates as raised. -/
def sendPromptBodyMulti (env : BridgeEnv) (st : BridgeState) (prompt : String)
    (timeout : Nat) (temperature? : Option ℚ) (maxTokens? : Option Nat)
    (connects : Nat) : SendPromptResultMulti :=
  let msg := mkMessageMulti env.now prompt temperature? maxTokens?
  match env.sendOutcome with
  | .closed =>
      ⟨.httpError 503 bridgeClosedDetail, { st with is_connected := false }, connects, []⟩
  | .error m => ⟨.raised m, st, connects, []⟩
  | .ok =>
      match env.recvOutcome with
      | .timeout =>
          ⟨.httpError 504 (timeoutDetailMulti timeout), st, connects, [msg]⟩
      | .closed =>
          ⟨.httpError 503 bridgeClosedDetail, { st with is_connected := false },
            connects, [msg]⟩
      | .error m => ⟨.raised m, st, connects, [msg]⟩
      | .message rawIn =>
          match loadsFlat rawIn with
          | some fields => ⟨.ok fields, st, connects, [msg]⟩
          | none => ⟨.raised jsonDecodeErrorDetail, st, connects, [msg]⟩

/-- main_multi_model.py's `VSCodeBridgeManager.send_prompt(prompt,
timeout, **kwargs)` (lines 146-193). -/
def sendPromptMulti (env : BridgeEnv) (st : BridgeState) (prompt : String)
    (timeout : Nat) (temperature? : Option ℚ) (maxTokens? : Option Nat) :
    SendPromptResultMulti :=
  if st.is_connected then
    sendPromptBodyMulti env st prompt timeout temperature? maxTokens? 0
  else
    let c := connect env.connectOk st
    if c.1 then sendPromptBodyMulti env c.2 prompt timeout temperature? maxTokens? 1
    else ⟨.httpError 503 bridgeUnavailableDetail, c.2, 1, []⟩

/-- Manager states reachable from construction (`__init__` gives
`ws_client = None`, `is_connected = False`) through any sequence of the
manager's operations. -/
inductive Reachable : BridgeState → Prop where
  | init : Reachable ⟨none, false⟩
  | connectStep (ok : Bool) {st : BridgeState} :
      Reachable st → Reachable (connect ok st).2
  | disconnectStep {st : BridgeState} :
      Reachable st → Reachable (disconnect st)
  | sendStep (env : BridgeEnv) (prompt : String) (timeout : Nat) {st : BridgeState} :
      Reachable st → Reachable (sendPromptMain env st prompt timeout).state
  | sendMultiStep (env : BridgeEnv) (prompt : String) (timeout : Nat)
      (temperature? : Option ℚ) (maxTokens? : Option Nat) {st : BridgeState} :
      Reachable st →
      Reachable (sendPromptMulti env st prompt timeout temperature? maxTokens?).state

/-- Entering `send_prompt` already connected skips reconnection. -/
theorem sendPromptMain_connected (env : BridgeEnv) (st : BridgeState)
    (prompt : String) (timeout : Nat) (h : st.is_connected = true) :
    sendPromptMain env st prompt timeout = sendPromptBodyMain env st prompt timeout 0 := by
  simp [sendPromptMain, h]

/-- Entering `send_prompt` disconnected with a succeeding `connect()`
runs the body once reconnected. -/
theorem sendPromptMain_reconnect (env : BridgeEnv) (st : BridgeState)
    (prompt : String) (timeout : Nat) (h : st.is_connected = false)
    (hok : env.connectOk = true) :
    sendPromptMain env st prompt timeout
      = sendPromptBodyMain env ⟨some (), true⟩ prompt timeout 1 := by
  simp [sendPromptMain, h, hok, connect]

/-- Entering `send_prompt` disconnected with a failing `connect()`
raises the 503 bridge-unavailable error before anything is sent. -/
theorem sendPromptMain_unavailable (env : BridgeEnv) (st : BridgeState)
    (prompt : String) (timeout : Nat) (h : st.is_connected = false)
    (hok : env.connectOk = false) :
    sendPromptMain env st prompt timeout
      = ⟨.httpError 503 bridgeUnavailableDetail,
          { st with is_connected := false }, 1, []⟩ := by
  simp [sendPromptMain, h, hok, connect]

/-- The body leaves the entry state intact except possibly for clearing
`is_connected`; in particular it never touches `ws_client`. -/
theorem sendPromptBodyMain_state (env : BridgeEnv) (st : BridgeState)
    (prompt : String) (timeout connects : Nat) :
    (sendPromptBodyMain env st prompt timeout connects).state = st
    ∨ (sendPromptBodyMain env st prompt timeout connects).state
        = { st with is_connected := false } := by
  rw [sendPromptBodyMain]
  rcases env.sendOutcome with _ | _ | m
  · rcases env.recvOutcome with raw | _ | _ | m
    · rcases hl : loadsFlat raw with _ | fields
      · simp only [hl]
        exact Or.inl trivial
      · simp only [hl]
        exact Or.inl trivial
    · exact Or.inl rfl
    · exact Or.inr rfl
    · exact Or.inl rfl
  · exact Or.inr rfl
  · exact Or.inl rfl

/-- Multi-model versions of the three entry lemmas and the state
lemma. -/
theorem sendPromptMulti_connected (env : BridgeEnv) (st : BridgeState)
    (prompt : String) (timeout : Nat) (temperature? : Option ℚ)
    (maxTokens? : Option Nat) (h : st.is_connected = true) :
    sendPromptMulti env st prompt timeout temperature? maxTokens?
      = sendPromptBodyMulti env st prompt timeout temperature? maxTokens? 0 := by
  simp [sendPromptMulti, h]

theorem sendPromptMulti_reconnect (env : BridgeEnv) (st : BridgeState)
    (prompt : String) (timeout : Nat) (temperature? : Option ℚ)
    (maxTokens? : Option Nat) (h : st.is_connected = false)
    (hok : env.connectOk = true) :
    sendPromptMulti env st prompt timeout temperature? maxTokens?
      = sendPromptBodyMulti env ⟨some (), true⟩ prompt timeout temperature? maxTokens? 1 := by
  simp [sendPromptMulti, h, hok, connect]

theorem sendPromptMulti_unavailable (env : BridgeEnv) (st : BridgeState)
    (prompt : String) (timeout : Nat) (temperature? : Option ℚ)
    (maxTokens? : Option Nat) (h : st.is_connected = false)
    (hok : env.connectOk = false) :
    sendPromptMulti env st prompt timeout temperature? maxTokens?
      = ⟨.httpError 503 bridgeUnavailableDetail,
          { st with is_connected := false }, 1, []⟩ := by
  simp [sendPromptMulti, h, hok, connect]

theorem sendPromptBodyMulti_state (env : BridgeEnv) (st : BridgeState)
    (prompt : String) (timeout : Nat) (temperature? : Option ℚ)
    (maxTokens? : Option Nat) (connects : Nat) :
    (sendPromptBodyMulti env st prompt timeout temperature? maxTokens? connects).state = st
    ∨ (sendPromptBodyMulti env st prompt timeout temperature? maxTokens? connects).state
        = { st with is_connected := false } := by
  rw [sendPromptBodyMulti]
  rcases env.sendOutcome with _ | _ | m
  · rcases env.recvOutcome with raw | _ | _ | m
    · rcases hl : loadsFlat raw with _ | fields
      · simp only [hl]
        exact Or.inl trivial
      · simp only [hl]
        exact Or.inl trivial
    · exact Or.inl rfl
    · exact Or.inr rfl
    · exact Or.inl rfl
  · exact Or.inr rfl
  · exact Or.inl rfl

/-- The body reports exactly the `connect()` count it was entered
with: the body itself never reconnects. -/
theorem sendPromptBodyMain_connectCalls (env : BridgeEnv) (st : BridgeState)
    (prompt : String) (timeout connects : Nat) :
    (sendPromptBodyMain env st prompt timeout connects).connectCalls = connects := by
  rw [sendPromptBodyMain]
  rcases env.sendOutcome with _ | _ | m
  · rcases env.recvOutcome with raw | _ | _ | m
    · rcases hl : loadsFlat raw with _ | fields <;> simp [hl]
    · rfl
    · rfl
    · rfl
  · rfl
  · rfl

theorem sendPromptBodyMulti_connectCalls (env : BridgeEnv) (st : BridgeState)
    (prompt : String) (timeout : Nat) (temperature? : Option ℚ)
    (maxTokens? : Option Nat) (connects : Nat) :
    (sendPromptBodyMulti env st prompt timeout
        temperature? maxTokens? connects).connectCalls = connects := by
  rw [sendPromptBodyMulti]
  rcases env.sendOutcome with _ | _ | m
  · rcases env.recvOutcome with raw | _ | _ | m
    · rcases hl : loadsFlat raw with _ | fields <;> simp [hl]
    · rfl
    · rfl
    · rfl
  · rfl
  · rfl

/-- Once the send succeeded, the serialized envelope is on the wire,
whatever happens while awaiting the reply. -/
theorem sendPromptBodyMain_sent (env : BridgeEnv) (st : BridgeState)
    (prompt : String) (timeout connects : Nat) (hs : env.sendOutcome = .ok) :
    (sendPromptBodyMain env st prompt timeout connects).sent
      = [dumpsFlat (messageFields (mkMessage env.now prompt))] := by
  rw [sendPromptBodyMain, hs]
  rcases env.recvOutcome with raw | _ | _ | m
  · rcases hl : loadsFlat raw with _ | fields <;> simp [hl]
  · rfl
  · rfl
  · rfl

theorem sendPromptBodyMulti_sent (env : BridgeEnv) (st : BridgeState)
    (prompt : String) (timeout : Nat) (temperature? : Option ℚ)
    (maxTokens? : Option Nat) (connects : Nat) (hs : env.sendOutcome = .ok) :
    (sendPromptBodyMulti env st prompt timeout temperature? maxTokens? connects).sent
      = [mkMessageMulti env.now prompt temperature? maxTokens?] := by
  rw [sendPromptBodyMulti, hs]
  rcases env.recvOutcome with raw | _ | _ | m
  · rcases hl : loadsFlat raw with _ | fields <;> simp [hl]
  · rfl
  · rfl
  · rfl

/-- In every reachable state, a set `is_connected` flag means a
transport object is present. -/
theorem reachable_client_of_connected {st : BridgeState} (h : Reachable st) :
    st.is_connected = true → st.ws_client = some () := by
  induction h with
  | init => intro hc; cases hc
  | connectStep ok h ih =>
      rcases ok with _ | _
      · simp [connect]
      · simp [connect]
  | disconnectStep h ih =>
      rename_i st
      rcases hw : st.ws_client with _ | u
      · simpa [disconnect, hw] using ih
      · simp [disconnect, hw]
  | sendStep env prompt timeout h ih =>
      rename_i st
      rcases hc : st.is_connected
      · rcases hok : env.connectOk
        · rw [sendPromptMain_unavailable env st prompt timeout hc hok]
          simp
        · rw [sendPromptMain_reconnect env st prompt timeout hc hok]
          rcases sendPromptBodyMain_state env ⟨some (), true⟩ prompt timeout 1 with hst | hst <;>
            rw [hst] <;> exact fun _ => rfl
      · rw [sendPromptMain_connected env st prompt timeout hc]
        rcases sendPromptBodyMain_state env st prompt timeout 0 with hst | hst <;> rw [hst]
        · exact ih
        · simp
  | sendMultiStep env prompt timeout temperature? maxTokens? h ih =>
      rename_i st
      rcases hc : st.is_connected
      · rcases hok : env.connectOk
        · rw [sendPromptMulti_unavailable env st prompt timeout temperature? maxTokens? hc hok]
          simp
        · rw [sendPromptMulti_reconnect env st prompt timeout temperature? maxTokens? hc hok]
          rcases sendPromptBodyMulti_state env ⟨some (), true⟩ prompt timeout
              temperature? maxTokens? 1 with hst | hst <;>
            rw [hst] <;> exact fun _ => rfl
      · rw [sendPromptMulti_connected env st prompt timeout temperature? maxTokens? hc]
        rcases sendPromptBodyMulti_state env st prompt timeout
            temperature? maxTokens? 0 with hst | hst <;> rw [hst]
        · exact ih
        · simp

/-- C1: a connected `send_prompt` whose peer never replies within the
timeout does NOT surface the distinct 504 timeout error in main.py: the
`HTTPException(504, ...)` raised by the inner timeout arm is caught by
the outer `except Exception` and re-raised as a 500 wrapping `str(e)`.
The physical connection is left open (state unchanged).  The
main_multi_model.py variant re-raises the original exception, so there
the 504 survives. -/
theorem sendPrompt_timeout_wrapped_as_500 :
    (sendPromptMain ⟨true, "2025-01-01T00:00:00", .ok, .timeout⟩
        ⟨some (), true⟩ "hello" 60).outcome
      = .httpError 500
          ("Error communicating with VS Code bridge: "
            ++ "504: Timeout waiting for Copilot response after 60 seconds")
    ∧ (sendPromptMain ⟨true, "2025-01-01T00:00:00", .ok, .timeout⟩
        ⟨some (), true⟩ "hello" 60).state = ⟨some (), true⟩
    ∧ (sendPromptMulti ⟨true, "2025-01-01T00:00:00", .ok, .timeout⟩
        ⟨some (), true⟩ "hello" 60 none none).outcome
      = .httpError 504 "Timeout waiting for response after 60 seconds" := by
  refine ⟨rfl, rfl, rfl⟩

/-- C5 counterexample: the request envelope's `type` field is the
string "copilot_request" in both implementations, not "request" as
claimed. -/
theorem envelope_type_not_request_counterexample :
    (mkMessage "2025-01-01T00:00:00" "hello").type ≠ "request"
    ∧ (mkMessage "2025-01-01T00:00:00" "hello").type = "copilot_request"
    ∧ (mkMessageMulti "2025-01-01T00:00:00" "hello" none none).type = "copilot_request" := by
  refine ⟨by decide, rfl, rfl⟩

/-- C5 (amended): for every prompt, `send_prompt` builds the envelope
`type: "copilot_request", requestId: now, prompt, timestamp: now`
(main_multi_model.py additionally carries `temperature`/`maxTokens`
from kwargs, defaulting to 0.7/2000) and writes its JSON serialization
to the transport before the reply is consulted: the write trace is the
same whatever the awaited reply turns out to be. -/
theorem sendPrompt_envelope (env : BridgeEnv) (st : BridgeState)
    (prompt : String) (timeout : Nat) (temperature? : Option ℚ)
    (maxTokens? : Option Nat) (h : st.is_connected = true)
    (hs : env.sendOutcome = .ok) :
    (sendPromptMain env st prompt timeout).sent
      = [dumpsFlat (messageFields (mkMessage env.now prompt))]
    ∧ mkMessage env.now prompt = ⟨"copilot_request", env.now, prompt, env.now⟩
    ∧ messageFields (mkMessage env.now prompt)
        = [("type", "copilot_request"), ("requestId", env.now),
           ("prompt", prompt), ("timestamp", env.now)]
    ∧ (sendPromptMulti env st prompt timeout temperature? maxTokens?).sent
        = [mkMessageMulti env.now prompt temperature? maxTokens?]
    ∧ mkMessageMulti env.now prompt temperature? maxTokens?
        = ⟨"copilot_request", env.now, prompt,
            temperature?.getD (7 / 10), maxTokens?.getD 2000, env.now⟩ := by
  refine ⟨?_, rfl, rfl, ?_, rfl⟩
  · rw [sendPromptMain_connected env st prompt timeout h]
    exact sendPromptBodyMain_sent env st prompt timeout 0 hs
  · rw [sendPromptMulti_connected env st prompt timeout temperature? maxTokens? h]
    exact sendPromptBodyMulti_sent env st prompt timeout temperature? maxTokens? 0 hs

/-- C5 witness: the envelope write at a concrete call. -/
theorem sendPrompt_envelope_witness :
    (sendPromptMain ⟨true, "2025-01-01T00:00:00", .ok, .message "\x7b\x7d"⟩
        ⟨some (), true⟩ "hello" 60).sent
      = [dumpsFlat (messageFields (mkMessage "2025-01-01T00:00:00" "hello"))] :=
  (sendPrompt_envelope ⟨true, "2025-01-01T00:00:00", .ok, .message "\x7b\x7d"⟩
    ⟨some (), true⟩ "hello" 60 none none rfl rfl).1

/-- C6: each `send_prompt` call invokes `connect()` at most once, never
when the flag is already set; and when the one reconnect fails, the
call raises the 503 bridge-unavailable error with nothing written to
the transport and no further connection attempt — in both
implementations. -/
theorem sendPrompt_connect_at_most_once (env : BridgeEnv) (st : BridgeState)
    (prompt : String) (timeout : Nat) (temperature? : Option ℚ)
    (maxTokens? : Option Nat) :
    (sendPromptMain env st prompt timeout).connectCalls ≤ 1
    ∧ (st.is_connected = true → (sendPromptMain env st prompt timeout).connectCalls = 0)
    ∧ (st.is_connected = false → env.connectOk = false →
        sendPromptMain env st prompt timeout
          = ⟨.httpError 503 bridgeUnavailableDetail,
              { st with is_connected := false }, 1, []⟩)
    ∧ (sendPromptMulti env st prompt timeout temperature? maxTokens?).connectCalls ≤ 1
    ∧ (st.is_connected = true →
        (sendPromptMulti env st prompt timeout temperature? maxTokens?).connectCalls = 0)
    ∧ (st.is_connected = false → env.connectOk = false →
        sendPromptMulti env st prompt timeout temperature? maxTokens?
          = ⟨.httpError 503 bridgeUnavailableDetail,
              { st with is_connected := false }, 1, []⟩) := by
  refine ⟨?_, ?_, ?_, ?_, ?_, ?_⟩
  · rcases hc : st.is_connected
    · rcases hok : env.connectOk
      · rw [sendPromptMain_unavailable env st prompt timeout hc hok]
      · rw [sendPromptMain_reconnect env st prompt timeout hc hok,
          sendPromptBodyMain_connectCalls]
    · rw [sendPromptMain_connected env st prompt timeout hc,
        sendPromptBodyMain_connectCalls]
      exact Nat.zero_le 1
  · intro hc
    rw [sendPromptMain_connected env st prompt timeout hc,
      sendPromptBodyMain_connectCalls]
  · intro hc hok
    exact sendPromptMain_unavailable env st prompt timeout hc hok
  · rcases hc : st.is_connected
    · rcases hok : env.connectOk
      · rw [sendPromptMulti_unavailable env st prompt timeout temperature? maxTokens? hc hok]
      · rw [sendPromptMulti_reconnect env st prompt timeout temperature? maxTokens? hc hok,
          sendPromptBodyMulti_connectCalls]
    · rw [sendPromptMulti_connected env st prompt timeout temperature? maxTokens? hc,
        sendPromptBodyMulti_connectCalls]
      exact Nat.zero_le 1
  · intro hc
    rw [sendPromptMulti_connected env st prompt timeout temperature? maxTokens? hc,
      sendPromptBodyMulti_connectCalls]
  · intro hc hok
    exact sendPromptMulti_unavailable env st prompt timeout temperature? maxTokens? hc hok

/-- C6 witness: a failed reconnect at a concrete call writes nothing
and stops after its single connect attempt. -/
theorem sendPrompt_connect_at_most_once_witness :
    sendPromptMain ⟨false, "2025-01-01T00:00:00", .ok, .timeout⟩
        ⟨none, false⟩ "hello" 60
      = ⟨.httpError 503 bridgeUnavailableDetail, ⟨none, false⟩, 1, []⟩ :=
  (sendPrompt_connect_at_most_once ⟨false, "2025-01-01T00:00:00", .ok, .timeout⟩
    ⟨none, false⟩ "hello" 60 none none).2.2.1 rfl rfl

/-- C7: while a connected `send_prompt` call runs, the `connected` flag
drops to false exactly when the transport reports closure (during the
send or during the wait), in which case the call fails with the 503
bridge-closed error; a mere timeout leaves the flag — indeed the whole
state — untouched. -/
theorem sendPrompt_connected_flag_iff_closed (env : BridgeEnv) (st : BridgeState)
    (prompt : String) (timeout : Nat) (h : st.is_connected = true) :
    ((sendPromptMain env st prompt timeout).state.is_connected = false
      ↔ env.sendOutcome = .closed
        ∨ (env.sendOutcome = .ok ∧ env.recvOutcome = .closed))
    ∧ (env.recvOutcome = .closed → env.sendOutcome = .ok →
        (sendPromptMain env st prompt timeout).outcome
          = .httpError 503 bridgeClosedDetail)
    ∧ (env.recvOutcome = .timeout → env.sendOutcome = .ok →
        (sendPromptMain env st prompt timeout).state.is_connected = true
          ∧ (sendPromptMain env st prompt timeout).state = st) := by
  rw [sendPromptMain_connected env st prompt timeout h]
  rcases hs : env.sendOutcome with _ | _ | m
  · rcases hr : env.recvOutcome with raw | _ | _ | m
    · rcases hl : loadsFlat raw with _ | fields <;>
        simp [sendPromptBodyMain, hs, hr, hl, h]
    · simp [sendPromptBodyMain, hs, hr, h]
    · simp [sendPromptBodyMain, hs, hr]
    · simp [sendPromptBodyMain, hs, hr, h]
  · simp [sendPromptBodyMain, hs]
  · simp [sendPromptBodyMain, hs, h]

/-- C7 witness: a concrete connected call that times out keeps the
flag set. -/
theorem sendPrompt_connected_flag_iff_closed_witness :
    (sendPromptMain ⟨true, "2025-01-01T00:00:00", .ok, .timeout⟩
        ⟨some (), true⟩ "hi" 60).state.is_connected = true :=
  ((sendPrompt_connected_flag_iff_closed ⟨true, "2025-01-01T00:00:00", .ok, .timeout⟩
    ⟨some (), true⟩ "hi" 60 rfl).2.2 rfl rfl).1

/-- C8: from every reachable manager state, `disconnect` is idempotent
and always leaves the `connected` flag false, whether or not a
transport was open. -/
theorem disconnect_idempotent (st : BridgeState) (h : Reachable st) :
    disconnect (disconnect st) = disconnect st
    ∧ (disconnect st).is_connected = false := by
  rcases hw : st.ws_client with _ | u
  · have hc : st.is_connected = false := by
      rcases hcc : st.is_connected
      · rfl
      · have := reachable_client_of_connected h hcc
        rw [hw] at this
        cases this
    constructor
    · simp [disconnect, hw]
    · simp [disconnect, hw, hc]
  · constructor
    · simp [disconnect, hw]
    · simp [disconnect, hw]

/-- C8 witness: the freshly constructed manager. -/
theorem disconnect_idempotent_witness :
    disconnect (disconnect ⟨none, false⟩) = disconnect ⟨none, false⟩
    ∧ (disconnect (⟨none, false⟩ : BridgeState)).is_connected = false :=
  disconnect_idempotent ⟨none, false⟩ Reachable.init

/-- C9: the request envelope built from any prompt, serialized with
`json.dumps` and parsed back with `json.loads`, yields the very same
fields; in particular its `prompt` field is the original prompt,
unchanged — the core applies no trimming or other mutation. -/
theorem envelope_prompt_roundtrip (prompt now : String) :
    loadsFlat (dumpsFlat (messageFields (mkMessage now prompt)))
      = some (messageFields (mkMessage now prompt))
    ∧ (messageFields (mkMessage now prompt)).lookup "prompt" = some prompt := by
  refine ⟨loadsFlat_dumpsFlat _, ?_⟩
  rfl

end DevMind
